import Mathlib

/-!
Shallow embedding of the robomongo SSH tunnel core
(`src/robomongo/ssh/server.c`) and of the external libc/libssh2 calls it
makes, together with proofs of the specified properties.

External library calls (socket creation, TCP connect/bind/listen, the SSH
handshake and credential submissions) are modelled by oracle environments:
a record of booleans / return codes describing how each external call would
answer.  The functions of `server.c` are translated statement by statement
over those oracles; their observable behaviour (return values, which
external calls were attempted, which resources stay open) is made explicit
in the result types.
-/

namespace Robomongo

/-- Helper: the character data of a string literal. -/
def sData (s : String) : List Char := s.data

/-! ## Model of libc `inet_addr`

`socket_connect` and `socket_listen` resolve their address argument with
`inet_addr(ip)` and treat the result `INADDR_NONE` (`(in_addr_t)-1`,
i.e. `0xFFFFFFFF`) as failure.  `inet_addr` parses 1 to 4 numeric parts
separated by `.`; each part is a C-style number (leading `0x`/`0X` = hex,
leading `0` = octal, otherwise decimal) that must start with a digit and be
fully consumed; parts stored at a dot must be ≤ 0xFF and the last part must
fit the remaining bytes.  A successful parse of value `0xFFFFFFFF`
(i.e. `255.255.255.255`) is indistinguishable from the error return. -/

def INADDR_NONE : Nat := 4294967295

def isDec (c : Char) : Bool := '0' ≤ c && c ≤ '9'

def isOct (c : Char) : Bool := '0' ≤ c && c ≤ '7'

def isHex (c : Char) : Bool :=
  isDec c || ('a' ≤ c && c ≤ 'f') || ('A' ≤ c && c ≤ 'F')

def decDigitVal (c : Char) : Nat := c.toNat - '0'.toNat

def hexDigitVal (c : Char) : Nat :=
  if isDec c then decDigitVal c
  else if 'a' ≤ c && c ≤ 'f' then c.toNat - 'a'.toNat + 10
  else c.toNat - 'A'.toNat + 10

/-- Value of a digit string in base `b` under digit valuation `f`. -/
def digitsVal (b : Nat) (f : Char → Nat) (l : List Char) : Nat :=
  l.foldl (fun acc c => acc * b + f c) 0

/-- One part of an `inet_addr` address: a C-style numeric token, which must
be nonempty, start with a digit, and be entirely made of digits of the
detected base (`strtoul` with base 0, full consumption). -/
def parseCNum0 : List Char → Option Nat
  | [] => none
  | c :: rest =>
    if c = '0' then
      match rest with
      | [] => some 0
      | d :: ds =>
        if d = 'x' ∨ d = 'X' then
          if ds ≠ [] ∧ ds.all isHex then some (digitsVal 16 hexDigitVal ds)
          else none
        else if (d :: ds).all isOct then
          some (digitsVal 8 decDigitVal (d :: ds))
        else none
    else if isDec c ∧ (c :: rest).all isDec then
      some (digitsVal 10 decDigitVal (c :: rest))
    else none

/-- Split a character list on `'.'` (every dot is a separator; empty parts
are kept and later rejected by `parseCNum0`). -/
def splitDots : List Char → List (List Char)
  | [] => [[]]
  | c :: rest =>
    if c = '.' then [] :: splitDots rest
    else
      match splitDots rest with
      | [] => [[c]]
      | p :: ps => (c :: p) :: ps

/-- Assemble the 32-bit address from the parsed parts, with the per-arity
range checks of `inet_aton` (`a` / `a.b` / `a.b.c` / `a.b.c.d`). -/
def combineParts : List Nat → Option Nat
  | [a] => if a ≤ 4294967295 then some a else none
  | [a, b] =>
    if a ≤ 255 ∧ b ≤ 16777215 then some (a * 16777216 + b) else none
  | [a, b, c] =>
    if a ≤ 255 ∧ b ≤ 255 ∧ c ≤ 65535 then
      some (a * 16777216 + b * 65536 + c)
    else none
  | [a, b, c, d] =>
    if a ≤ 255 ∧ b ≤ 255 ∧ c ≤ 255 ∧ d ≤ 255 then
      some (a * 16777216 + b * 65536 + c * 256 + d)
    else none
  | _ => none

/-- `inet_aton`: numeric parse of an IPv4 address string. -/
def inet_aton (s : List Char) : Option Nat :=
  match (splitDots s).mapM parseCNum0 with
  | none => none
  | some vals => combineParts vals

/-- `inet_addr`: like `inet_aton` but the error return `INADDR_NONE`
collides with the valid address `255.255.255.255`. -/
def inet_addr (s : List Char) : Nat :=
  match inet_aton s with
  | some v => v
  | none => INADDR_NONE

/-! ## `socket_connect` (server.c lines 116-140)

Creates a TCP socket, resolves the numeric address with `inet_addr`,
and connects; returns -1 on each failure.  The socket-creation and
TCP-connect outcomes are external and supplied by the oracle. -/

/-- Oracle for the external calls made by `socket_connect`. -/
structure ConnEnv where
  socketOk : Bool
  connectOk : Bool
deriving DecidableEq, Repr

inductive ConnectErr
  | socketCreateFail
  | invalidAddr
  | connectFail
deriving DecidableEq, Repr

/-- `socket_connect(ip, port)`: the three checks in source order. -/
def socket_connect (env : ConnEnv) (ip : List Char) (_port : Nat) :
    Except ConnectErr Unit :=
  if env.socketOk = false then .error .socketCreateFail
  else if inet_addr ip = INADDR_NONE then .error .invalidAddr
  else if env.connectOk = false then .error .connectFail
  else .ok ()

/-! ## `socket_listen` (server.c lines 145-178) -/

structure ListenEnv where
  socketOk : Bool
  bindOk : Bool
  listenOk : Bool
deriving DecidableEq, Repr

inductive ListenErr
  | socketCreateFail
  | invalidAddr
  | bindFail
  | listenFail
deriving DecidableEq, Repr

/-- `socket_listen(ip, port)`: socket, `inet_addr`, bind, listen, in
source order (`setsockopt`'s result is ignored by the source). -/
def socket_listen (env : ListenEnv) (ip : List Char) (_port : Nat) :
    Except ListenErr Unit :=
  if env.socketOk = false then .error .socketCreateFail
  else if inet_addr ip = INADDR_NONE then .error .invalidAddr
  else if env.bindOk = false then .error .bindFail
  else if env.listenOk = false then .error .listenFail
  else .ok ()

/-! ## `ssh_connect` (server.c lines 183-251)

Creates a libssh2 session, performs the handshake, computes the host-key
fingerprint (`libssh2_hostkey_hash`, assigned to a local variable and never
inspected), queries the advertised authentication list with
`libssh2_userauth_list`, tests membership with `strstr`, and performs at
most one authentication attempt chosen by `type`.  Returns 0 (here: a
non-`ok` error) on every failure. -/

/-- `enum ssh_auth_type`. -/
inductive SshAuthType
  | authNone
  | authPassword
  | authPublickey
deriving DecidableEq, Repr

/-- One credential exchange actually submitted to the gateway. -/
inductive AuthAttempt
  | password
  | publickey
deriving DecidableEq, Repr

/-- The distinguishable outcomes of `ssh_connect` (each failure return 0 in
the source is preceded by a distinct log message). -/
inductive SshErr
  | ok
  | sessionInitFail
  | handshakeFail
  | methodUnsupported
  | authFailed
deriving DecidableEq, Repr

/-- Oracle for the external libssh2 calls made by `ssh_connect`. -/
structure SshEnv where
  sessionInitOk : Bool
  handshakeRc : Int
  fingerprint : List Nat
  userauthlist : List Char
  passwordAuthRc : Int
  publickeyAuthRc : Int
deriving DecidableEq, Repr

/-- Observable outcome of `ssh_connect`: the result, the credential
exchanges attempted (in order), whether a session object was allocated by
`libssh2_session_init`, and whether the host-key fingerprint was
computed. -/
structure SshResult where
  err : SshErr
  attempts : List AuthAttempt
  sessionAllocated : Bool
  fingerprintComputed : Bool
deriving DecidableEq, Repr

/-- `strstr(hay, needle) != NULL`: `needle` occurs as a contiguous
substring of `hay`. -/
def beginsWith : List Char → List Char → Bool
  | _, [] => true
  | [], _ :: _ => false
  | a :: as, b :: bs => a == b && beginsWith as bs

def hasSub (hay needle : List Char) : Bool :=
  match hay with
  | [] => needle.isEmpty
  | c :: tl => beginsWith (c :: tl) needle || hasSub tl needle

/-- `ssh_connect(sock, type, ...)`, statement by statement. -/
def ssh_connect (env : SshEnv) (ty : SshAuthType) : SshResult :=
  if env.sessionInitOk = false then
    ⟨.sessionInitFail, [], false, false⟩
  else if env.handshakeRc ≠ 0 then
    ⟨.handshakeFail, [], true, false⟩
  else
    let _fingerprint := env.fingerprint
    let authPassword := hasSub env.userauthlist (sData "password")
    let authPublickey := hasSub env.userauthlist (sData "publickey")
    if authPassword = true ∧ ty = .authPassword then
      if env.passwordAuthRc ≠ 0 then ⟨.authFailed, [.password], true, true⟩
      else ⟨.ok, [.password], true, true⟩
    else if authPublickey = true ∧ ty = .authPublickey then
      if env.publickeyAuthRc ≠ 0 then ⟨.authFailed, [.publickey], true, true⟩
      else ⟨.ok, [.publickey], true, true⟩
    else
      ⟨.methodUnsupported, [], true, true⟩

/-! ## `main` (server.c lines 254-301)

The hard-coded config selects `AUTH_PUBLICKEY`, gateway
`198.61.166.171:22`, local listener `127.0.0.1:27040`.  `main` runs
`init`, `socket_connect`, `ssh_connect`, `socket_listen` in order,
returning 1 at the first failure, and on full success logs, calls
`cleanup()` and returns 0.  We record the calls performed and the
resources still held when the process exits. -/

/-- External calls `main` performs (in trace order). -/
inductive Ev
  | evInit
  | evConnect
  | evSshConnect
  | evListen
  | evCleanup
deriving DecidableEq, Repr

/-- Resources the process can hold. -/
inductive Res
  | subsystems
  | gatewaySocket
  | sshSession
  | listenerSocket
deriving DecidableEq, Repr

structure MainEnv where
  initOk : Bool
  conn : ConnEnv
  ssh : SshEnv
  lis : ListenEnv
deriving DecidableEq, Repr

structure MainOutcome where
  exitCode : Nat
  trace : List Ev
  openAtExit : List Res
deriving DecidableEq, Repr

def configServerip : List Char := sData "198.61.166.171"

def configLocalip : List Char := sData "127.0.0.1"

/-- `main`, path by path.  `openAtExit` lists what is still held when the
process returns: no path closes the gateway socket, frees the session, or
closes the listener; only the full-success path runs `cleanup()`, which
releases just the process-wide subsystems. -/
def main_model (env : MainEnv) : MainOutcome :=
  if env.initOk = false then
    ⟨1, [.evInit], []⟩
  else
    match socket_connect env.conn configServerip 22 with
    | .error _ => ⟨1, [.evInit, .evConnect], [.subsystems]⟩
    | .ok _ =>
      if (ssh_connect env.ssh .authPublickey).err ≠ .ok then
        ⟨1, [.evInit, .evConnect, .evSshConnect],
          [.subsystems, .gatewaySocket] ++
            (if (ssh_connect env.ssh .authPublickey).sessionAllocated then
              [.sshSession]
            else [])⟩
      else
        match socket_listen env.lis configLocalip 27040 with
        | .error _ =>
          ⟨1, [.evInit, .evConnect, .evSshConnect, .evListen],
            [.subsystems, .gatewaySocket, .sshSession]⟩
        | .ok _ =>
          ⟨0, [.evInit, .evConnect, .evSshConnect, .evListen, .evCleanup],
            [.gatewaySocket, .sshSession, .listenerSocket]⟩

/-! ## Tunnel Relay byte-pump -/

/-- Modelled from the spec: the Tunnel Relay byte-pump is absent from the
sources (the `main` in `src/robomongo/ssh/server.c` stops before the
accept loop; no relay code is under `src/`).  Per §4.5, each direction
"reads up to a fixed buffer size from its source and writes the same bytes
to its destination, looping until the source signals end-of-stream".
`relayPump bufSize src` is the byte sequence written to the destination by
one direction whose source stream carries exactly `src` and then signals
end-of-stream, reading chunks of at most `max bufSize 1` bytes. -/
def relayPump (bufSize : Nat) : List Nat → List Nat
  | [] => []
  | x :: xs =>
    (x :: xs.take (bufSize - 1)) ++ relayPump bufSize (xs.drop (bufSize - 1))
termination_by l => l.length
decreasing_by
  simp [List.length_drop]
  omega

/-! ## Concrete environments used by witnesses and counterexamples -/

/-- A gateway that advertises both methods and accepts both credential
exchanges; handshake succeeds. -/
def sshEnvOk : SshEnv :=
  ⟨true, 0, [], sData "publickey,password", 0, 0⟩

/-- Scenario B gateway: advertises `password` only. -/
def sshEnvPasswordOnly : SshEnv :=
  ⟨true, 0, [], sData "password", 0, 0⟩

/-- A gateway that advertises `password` and rejects the password
credential exchange. -/
def sshEnvAuthReject : SshEnv :=
  ⟨true, 0, [], sData "password", 1, 0⟩

/-- Every external call succeeds. -/
def envAllOk : MainEnv :=
  ⟨true, ⟨true, true⟩, sshEnvOk, ⟨true, true, true⟩⟩

/-- The TCP connect to the gateway fails; everything else would
succeed. -/
def envConnectFail : MainEnv :=
  ⟨true, ⟨true, false⟩, sshEnvOk, ⟨true, true, true⟩⟩

/-! ## Theorems -/

/-- C1: for every call of `ssh_connect` where the caller-selected method
(`Password` or `PublicKey`) is not among the methods the gateway
advertises, the call fails with the method-unsupported error and no
credential exchange is attempted. -/
theorem ssh_connect_unsupported_method (env : SshEnv) (ty : SshAuthType)
    (hinit : env.sessionInitOk = true) (hhs : env.handshakeRc = 0)
    (hsel : (ty = .authPassword ∧
              hasSub env.userauthlist (sData "password") = false) ∨
            (ty = .authPublickey ∧
              hasSub env.userauthlist (sData "publickey") = false)) :
    (ssh_connect env ty).err = .methodUnsupported ∧
      (ssh_connect env ty).attempts = [] := by
  rcases hsel with ⟨rfl, hadv⟩ | ⟨rfl, hadv⟩ <;>
    simp [ssh_connect, hinit, hhs, hadv]

/-- C1 witness: Scenario B — gateway advertises `password` only, config
selects `PublicKey`. -/
theorem ssh_connect_unsupported_method_witness :
    (ssh_connect sshEnvPasswordOnly .authPublickey).err =
        .methodUnsupported ∧
      (ssh_connect sshEnvPasswordOnly .authPublickey).attempts = [] :=
  ssh_connect_unsupported_method sshEnvPasswordOnly .authPublickey rfl rfl
    (Or.inr ⟨rfl, by decide⟩)

/-- C5: `ssh_connect` performs at most one authentication attempt, and
when the gateway rejects the credentials the call fails with the
auth-failed error after exactly the one attempt with the selected method —
no retry, no fallback. -/
theorem ssh_connect_single_attempt (env : SshEnv) (ty : SshAuthType) :
    (ssh_connect env ty).attempts.length ≤ 1 ∧
    ((ssh_connect env ty).err = .authFailed →
      (ssh_connect env ty).err ≠ .ok ∧
      ((ty = .authPassword ∧
          (ssh_connect env ty).attempts = [.password]) ∨
       (ty = .authPublickey ∧
          (ssh_connect env ty).attempts = [.publickey]))) := by
  cases ty <;>
    cases hsi : env.sessionInitOk <;>
    by_cases hrc : env.handshakeRc = 0 <;>
    by_cases hp : hasSub env.userauthlist (sData "password") = true <;>
    by_cases hk : hasSub env.userauthlist (sData "publickey") = true <;>
    by_cases hpa : env.passwordAuthRc = 0 <;>
    by_cases hka : env.publickeyAuthRc = 0 <;>
    simp_all [ssh_connect]

/-- C5 witness: a gateway that advertises `password` and rejects the
password credentials — one attempt, then auth-failed. -/
theorem ssh_connect_single_attempt_witness :
    (ssh_connect sshEnvAuthReject .authPassword).attempts = [.password] := by
  have h := ssh_connect_single_attempt sshEnvAuthReject .authPassword
  rcases (h.2 (by decide)).2 with ⟨_, ha⟩ | ⟨hc, _⟩
  · exact ha
  · exact absurd hc (by decide)

/-- C9: the host-key fingerprint is computed once the handshake succeeds,
but its value never influences the outcome: two runs differing only in the
fingerprint have identical results (including which authentication steps
run). -/
theorem ssh_connect_fingerprint_noninterference (env : SshEnv)
    (f g : List Nat) (ty : SshAuthType) :
    ssh_connect { env with fingerprint := f } ty =
        ssh_connect { env with fingerprint := g } ty ∧
    (env.sessionInitOk = true → env.handshakeRc = 0 →
      (ssh_connect env ty).fingerprintComputed = true) := by
  refine ⟨rfl, fun hsi hrc => ?_⟩
  by_cases hp : hasSub env.userauthlist (sData "password") = true <;>
    by_cases hk : hasSub env.userauthlist (sData "publickey") = true <;>
    by_cases hpa : env.passwordAuthRc = 0 <;>
    by_cases hka : env.publickeyAuthRc = 0 <;>
    cases ty <;>
    simp_all [ssh_connect]

/-- C9 witness: two concrete fingerprints, same outcome; and the
fingerprint is computed on the all-success gateway. -/
theorem ssh_connect_fingerprint_noninterference_witness :
    ssh_connect { sshEnvOk with fingerprint := [1, 2, 3] } .authPublickey =
        ssh_connect { sshEnvOk with fingerprint := [4, 5, 6] }
          .authPublickey ∧
    (ssh_connect sshEnvOk .authPublickey).fingerprintComputed = true :=
  ⟨(ssh_connect_fingerprint_noninterference sshEnvOk [1, 2, 3] [4, 5, 6]
      .authPublickey).1,
   (ssh_connect_fingerprint_noninterference sshEnvOk [1, 2, 3] [4, 5, 6]
      .authPublickey).2 rfl rfl⟩

/-- C10: with selected type `AUTH_NONE` the call always fails and no
credential exchange is attempted, whatever the gateway advertises. -/
theorem ssh_connect_auth_none_fails (env : SshEnv) :
    (ssh_connect env .authNone).err ≠ .ok ∧
      (ssh_connect env .authNone).attempts = [] := by
  cases hsi : env.sessionInitOk <;>
    by_cases hrc : env.handshakeRc = 0 <;>
    simp_all [ssh_connect]

/-- C3 counterexample: `init` succeeds, `socket_connect` fails — the
process exits (code 1) without ever invoking `cleanup`, so `cleanup` is
not invoked exactly once on every exit path. -/
theorem main_no_cleanup_on_connect_fail :
    envConnectFail.initOk = true ∧
    (main_model envConnectFail).exitCode = 1 ∧
    (main_model envConnectFail).trace.count Ev.evCleanup = 0 := by decide

/-- C3 (amended): `cleanup` is invoked exactly once on the run that
completes setup (exit code 0) and zero times on every early-return
failure path. -/
theorem main_cleanup_count (env : MainEnv) :
    (main_model env).trace.count Ev.evCleanup =
      if (main_model env).exitCode = 0 then 1 else 0 := by
  unfold main_model
  split
  · rfl
  · split
    · rfl
    · split
      · rfl
      · split
        · rfl
        · rfl

/-- C4 counterexample: on the full-success run the process does reach
`cleanup`, yet the gateway socket, the SSH session and the listener socket
are all still held when the process exits — teardown does not release
them. -/
theorem main_leaks_on_shutdown :
    Ev.evCleanup ∈ (main_model envAllOk).trace ∧
    (main_model envAllOk).openAtExit ≠ [] := by decide

/-- C4 (amended): on every run that reaches `cleanup`, `cleanup` releases
only the process-wide subsystems; the gateway connection socket, the SSH
session handle and the listener socket all remain held at process exit
(reclaimed by the operating system, not by the program). -/
theorem main_open_at_cleanup (env : MainEnv)
    (h : Ev.evCleanup ∈ (main_model env).trace) :
    (main_model env).openAtExit =
      [Res.gatewaySocket, Res.sshSession, Res.listenerSocket] := by
  unfold main_model at h ⊢
  split at h
  · simp at h
  · split at h
    · simp at h
    · split at h
      · simp at h
      · split at h
        · simp at h
        · simp_all

/-- C4 witness: the all-success run reaches `cleanup`. -/
theorem main_open_at_cleanup_witness :
    (main_model envAllOk).openAtExit =
      [Res.gatewaySocket, Res.sshSession, Res.listenerSocket] :=
  main_open_at_cleanup envAllOk (by decide)

/-- C6: the process exits with code 0 exactly when `init`,
`socket_connect`, `ssh_connect` and `socket_listen` all succeed, and with
the non-zero code 1 whenever any of them fails. -/
theorem main_exit_code (env : MainEnv) :
    ((main_model env).exitCode = 0 ↔
      (env.initOk = true ∧
       socket_connect env.conn configServerip 22 = .ok () ∧
       (ssh_connect env.ssh .authPublickey).err = .ok ∧
       socket_listen env.lis configLocalip 27040 = .ok ())) ∧
    ((main_model env).exitCode = 0 ∨ (main_model env).exitCode = 1) := by
  unfold main_model
  split
  · rename_i hinit
    simp [hinit]
  · rename_i hinit
    have hinit' : env.initOk = true := by
      simp at hinit
      exact hinit
    split
    · rename_i e hc
      simp [hc, hinit']
    · rename_i u hc
      split
      · rename_i herr
        simp [hc, hinit', herr]
      · rename_i herr
        have herr' : (ssh_connect env.ssh .authPublickey).err = .ok := by
          simpa using herr
        split
        · rename_i e2 hl
          simp [hc, hinit', herr', hl]
        · rename_i u2 hl
          simp [hc, hinit', herr', hl]

/-- C8: whenever `init` succeeds and the outbound TCP connection to the
gateway fails, `socket_connect` fails with the connect error, the process
exits non-zero, and `socket_listen` is never invoked. -/
theorem main_connect_fail_no_listener (env : MainEnv)
    (hinit : env.initOk = true)
    (hsock : env.conn.socketOk = true) (hconn : env.conn.connectOk = false) :
    socket_connect env.conn configServerip 22 = .error .connectFail ∧
    (main_model env).exitCode ≠ 0 ∧
    Ev.evListen ∉ (main_model env).trace := by
  have haddr : ¬(inet_addr configServerip = INADDR_NONE) := by decide
  have hc : socket_connect env.conn configServerip 22 =
      .error .connectFail := by
    simp [socket_connect, hsock, hconn, haddr]
  refine ⟨hc, ?_, ?_⟩ <;> simp [main_model, hinit, hc]

/-- C8 witness: Scenario D at a concrete environment — gateway
unreachable, listener never opened. -/
theorem main_connect_fail_no_listener_witness :
    socket_connect envConnectFail.conn configServerip 22 =
        .error .connectFail ∧
    (main_model envConnectFail).exitCode ≠ 0 ∧
    Ev.evListen ∉ (main_model envConnectFail).trace :=
  main_connect_fail_no_listener envConnectFail rfl rfl rfl

/-- Helper for C2: the byte-pump delivers its source stream unchanged,
by strong induction on the length of the remaining stream. -/
theorem relayPump_eq_aux (bufSize : Nat) :
    ∀ n, ∀ B : List Nat, B.length ≤ n → relayPump bufSize B = B := by
  intro n
  induction n with
  | zero =>
    intro B hB
    have hnil : B = [] := List.eq_nil_of_length_eq_zero (Nat.le_zero.mp hB)
    subst hnil
    simp [relayPump]
  | succ n ih =>
    intro B hB
    cases B with
    | nil => simp [relayPump]
    | cons x xs =>
      have hlen : (xs.drop (bufSize - 1)).length ≤ n := by
        simp only [List.length_drop]
        simp only [List.length_cons] at hB
        omega
      simp only [relayPump, ih (xs.drop (bufSize - 1)) hlen]
      simp [List.take_append_drop]

/-- C2: for every byte sequence `B` read from the source after the tunnel
connection is established (and no I/O error), the byte-pump writes exactly
`B` to the destination, in order — no truncation, duplication or
reordering, for any buffer size. -/
theorem relay_byte_transparency (bufSize : Nat) (B : List Nat) :
    relayPump bufSize B = B :=
  relayPump_eq_aux bufSize B.length B le_rfl

/-! ## C7: address resolution versus "valid dotted-quad" -/

/-- Spec-side definition, written from the claim's words for comparison
with the code's `inet_addr`: a valid dotted-quad IPv4 address is four
decimal components, each of value at most 255, separated by dots. -/
def isDottedQuad (s : List Char) : Bool :=
  match splitDots s with
  | [p1, p2, p3, p4] =>
    [p1, p2, p3, p4].all fun p =>
      !p.isEmpty && p.all isDec &&
        decide (digitsVal 10 decDigitVal p ≤ 255)
  | _ => false

/-- C7 counterexample: resolution failure is not equivalent to "not a
valid dotted-quad".  The valid dotted-quad `255.255.255.255` parses to
`0xFFFFFFFF`, which collides with the `INADDR_NONE` error return, so the
resolution step fails on it; conversely the non-dotted-quad `1.2.3` is a
legal 3-part numeric address and resolution succeeds. -/
theorem socket_connect_resolution_cx :
    isDottedQuad (sData "255.255.255.255") = true ∧
    socket_connect ⟨true, true⟩ (sData "255.255.255.255") 22 =
      .error .invalidAddr ∧
    isDottedQuad (sData "1.2.3") = false ∧
    socket_connect ⟨true, true⟩ (sData "1.2.3") 22 = .ok () :=
  ⟨rfl, rfl, rfl, rfl⟩

/-- A decimal octet in canonical form: nonempty, all decimal digits, no
leading zero (except the single digit `0` itself), value at most 255. -/
def DecOctet (p : List Char) : Prop :=
  p ≠ [] ∧ p.all isDec = true ∧ (p.head? = some '0' → p = ['0']) ∧
    digitsVal 10 decDigitVal p ≤ 255

/-- `splitDots` pulls off a dot-free part before a dot. -/
theorem splitDots_append (p rest : List Char) (hp : ∀ c ∈ p, c ≠ '.') :
    splitDots (p ++ '.' :: rest) = p :: splitDots rest := by
  induction p with
  | nil => simp [splitDots]
  | cons c cs ih =>
    have hc : c ≠ '.' := hp c (by simp)
    have ih' := ih fun d hd => hp d (by simp [hd])
    simp only [List.cons_append, splitDots, if_neg hc, List.append_eq, ih']

/-- `splitDots` of a dot-free part is that single part. -/
theorem splitDots_no_dot (p : List Char) (hp : ∀ c ∈ p, c ≠ '.') :
    splitDots p = [p] := by
  induction p with
  | nil => rfl
  | cons c cs ih =>
    have hc : c ≠ '.' := hp c (by simp)
    have ih' := ih fun d hd => hp d (by simp [hd])
    simp only [splitDots, if_neg hc, ih']

/-- A decimal digit is not a dot. -/
theorem isDec_ne_dot (p : List Char) (hp : p.all isDec = true) :
    ∀ c ∈ p, c ≠ '.' := by
  intro c hc hdot
  have hd : isDec c = true := by
    have := List.all_eq_true.mp hp c hc
    simpa using this
  subst hdot
  exact absurd hd (by decide)

/-- `parseCNum0` evaluates a canonical decimal octet to its decimal
value. -/
theorem parseCNum0_decOctet (p : List Char) (h : DecOctet p) :
    parseCNum0 p = some (digitsVal 10 decDigitVal p) := by
  obtain ⟨hne, hdec, hzero, _⟩ := h
  cases p with
  | nil => exact absurd rfl hne
  | cons c cs =>
    by_cases hc : c = '0'
    · subst hc
      have hcs : '0' :: cs = ['0'] := hzero rfl
      have hcs' : cs = [] := by injection hcs
      subst hcs'
      decide
    · have hcdec : isDec c = true := by
        have := List.all_eq_true.mp hdec c (by simp)
        simpa using this
      simp [parseCNum0, hc, hcdec, hdec]

/-- C7 (amended): the resolution step of `socket_connect` fails exactly
when `inet_addr`'s numeric parse of the string fails or yields
`0xFFFFFFFF` (`INADDR_NONE`) — not exactly when the string is not a valid
dotted-quad; the outcome is a pure function of the string alone (no DNS is
consulted).  In particular every canonical-decimal dotted-quad other than
`255.255.255.255` does resolve. -/
theorem socket_connect_resolution (env : ConnEnv) (ip : List Char)
    (port : Nat) (p1 p2 p3 p4 : List Char)
    (h1 : DecOctet p1) (h2 : DecOctet p2) (h3 : DecOctet p3)
    (h4 : DecOctet p4)
    (hmax : ¬(digitsVal 10 decDigitVal p1 = 255 ∧
              digitsVal 10 decDigitVal p2 = 255 ∧
              digitsVal 10 decDigitVal p3 = 255 ∧
              digitsVal 10 decDigitVal p4 = 255)) :
    (socket_connect env ip port = .error .invalidAddr ↔
      env.socketOk = true ∧ inet_addr ip = INADDR_NONE) ∧
    inet_addr (p1 ++ '.' :: (p2 ++ '.' :: (p3 ++ '.' :: p4))) ≠
      INADDR_NONE := by
  constructor
  · unfold socket_connect
    cases hs : env.socketOk
    · simp
    · by_cases ha : inet_addr ip = INADDR_NONE
      · simp [ha]
      · by_cases hco : env.connectOk = false <;> simp [ha, hco]
  · have n1 := isDec_ne_dot p1 h1.2.1
    have n2 := isDec_ne_dot p2 h2.2.1
    have n3 := isDec_ne_dot p3 h3.2.1
    have n4 := isDec_ne_dot p4 h4.2.1
    have hsplit :
        splitDots (p1 ++ '.' :: (p2 ++ '.' :: (p3 ++ '.' :: p4))) =
          [p1, p2, p3, p4] := by
      rw [splitDots_append p1 _ n1, splitDots_append p2 _ n2,
        splitDots_append p3 _ n3, splitDots_no_dot p4 n4]
    have q1 := parseCNum0_decOctet p1 h1
    have q2 := parseCNum0_decOctet p2 h2
    have q3 := parseCNum0_decOctet p3 h3
    have q4 := parseCNum0_decOctet p4 h4
    have b1 := h1.2.2.2
    have b2 := h2.2.2.2
    have b3 := h3.2.2.2
    have b4 := h4.2.2.2
    unfold inet_addr inet_aton
    rw [hsplit]
    simp only [List.mapM_cons, List.mapM_nil, q1, q2, q3, q4,
      Option.pure_def, Option.bind_some, Option.bind_eq_bind,
      Option.some_bind]
    simp only [combineParts, if_pos (And.intro b1 (And.intro b2
      (And.intro b3 b4)))]
    simp only [INADDR_NONE]
    omega

/-- C7 amended-claim witness: the canonical dotted-quad `10.0.0.1`
resolves, and the error characterization holds at a concrete
environment. -/
theorem socket_connect_resolution_witness :
    (socket_connect ⟨true, true⟩ (sData "10.0.0.1") 22 =
        .error .invalidAddr ↔
      (⟨true, true⟩ : ConnEnv).socketOk = true ∧
        inet_addr (sData "10.0.0.1") = INADDR_NONE) ∧
    inet_addr
        (sData "10" ++ '.' :: (sData "0" ++ '.' :: (sData "0" ++ '.' ::
          sData "1"))) ≠ INADDR_NONE :=
  socket_connect_resolution ⟨true, true⟩ (sData "10.0.0.1") 22
    (sData "10") (sData "0") (sData "0") (sData "1")
    (by constructor <;> decide)
    (by constructor <;> decide)
    (by constructor <;> decide)
    (by constructor <;> decide)
    (by decide)

end Robomongo
